import Mathlib

/-!
Verification of the Plynk brokerage API client (src/plynk_api/plynk.py).

The client is embedded shallowly:

* JSON response bodies are values of an inductive `Json` type; JSON numbers
  are modelled as exact rationals (the claims only exercise finite decimal
  literals).
* Python subscripting, the `in` operator, `dict.get`, truthiness and
  `float(...)` conversion are modelled by explicit functions returning
  `Except PyExc _`, distinguishing `KeyError`, `IndexError`, `ValueError`,
  `TypeError` and `AttributeError`, because the source's `try/except`
  clauses catch only some of these.
* The network is an oracle: each run of `login` receives a `LoginEnv`
  recording the response each request would get; each data accessor
  receives the HTTP status and parsed body of its one response.
* Client-visible state (`logged_in`, `account_number`, the cookie jar, and
  the credential cache file on disk) is a `PlynkState` record; every
  operation also emits a `List Event` trace of the network requests and
  file operations it performs, used to state the "zero requests" /
  "clears before authenticating" properties.
-/

set_option autoImplicit false

namespace Plynk

/-- Parsed JSON values, as returned by `response.json()`. Numbers are exact
rationals: the behaviours under verification only involve finite decimal
literals, so IEEE rounding is irrelevant to every claim. -/
inductive Json where
  | null : Json
  | bool : Bool → Json
  | num : Rat → Json
  | str : String → Json
  | arr : List Json → Json
  | obj : List (String × Json) → Json

/-- Python exceptions that the extraction code in the source can raise and
selectively catch. -/
inductive PyExc where
  | keyError : PyExc
  | indexError : PyExc
  | valueError : PyExc
  | typeError : PyExc
  | attributeError : PyExc
deriving DecidableEq

/-- Lookup of a string key in an association list, first match wins, as in a
Python dict whose keys are unique. -/
def alistLookup {β : Type} (k : String) : List (String × β) → Option β
  | [] => none
  | (k', v) :: rest => if k' = k then some v else alistLookup k rest

/-- Python `d[key]` with a string key: `KeyError` on a dict missing the key,
`TypeError` on lists, strings and scalars (string indices must be integers). -/
def pyGetItemStr (j : Json) (k : String) : Except PyExc Json :=
  match j with
  | .obj kvs =>
    match alistLookup k kvs with
    | some v => .ok v
    | none => .error .keyError
  | _ => .error .typeError

/-- Python `x[0]`: head of a list (`IndexError` if empty), first character of a
string (`IndexError` if empty), `KeyError` on a dict with string keys,
`TypeError` on scalars. -/
def pyGetIdx0 (j : Json) : Except PyExc Json :=
  match j with
  | .arr [] => .error .indexError
  | .arr (x :: _) => .ok x
  | .str s =>
    match s.toList with
    | [] => .error .indexError
    | c :: _ => .ok (.str (String.mk [c]))
  | .obj _ => .error .keyError
  | _ => .error .typeError

/-- Python `d.get(key, default)`: only dicts have `.get`; every other value
raises `AttributeError`. -/
def pyDictGet (j : Json) (k : String) (default : Json) : Except PyExc Json :=
  match j with
  | .obj kvs =>
    match alistLookup k kvs with
    | some v => .ok v
    | none => .ok default
  | _ => .error .attributeError

/-- Substring test on character lists: does `needle` occur contiguously in
`hay`? -/
def containsSubstring (hay needle : List Char) : Bool :=
  match hay with
  | [] => needle.isEmpty
  | c :: rest => needle.isPrefixOf (c :: rest) || containsSubstring rest needle

/-- Python `"k" in x`: key test on dicts, membership on lists, substring test
on strings, `TypeError` on non-iterables. -/
def pyContains (j : Json) (k : String) : Except PyExc Bool :=
  match j with
  | .obj kvs => .ok ((alistLookup k kvs).isSome)
  | .arr xs => .ok (xs.any fun x => match x with | .str s => s = k | _ => false)
  | .str s => .ok (containsSubstring s.toList k.toList)
  | _ => .error .typeError

/-- Python truthiness of JSON values: `None`, `False`, `0`, `""`, `[]` and
`{}` are falsy. -/
def jsonTruthy : Json → Bool
  | .null => false
  | .bool b => b
  | .num q => q ≠ 0
  | .str s => s ≠ ""
  | .arr xs => !xs.isEmpty
  | .obj kvs => !kvs.isEmpty

/-- Python `x == "s"`: only equal `str` values compare equal to a string
literal; values of any other type compare unequal (never an error). -/
def pyEqStr (j : Json) (s : String) : Bool :=
  match j with
  | .str t => t = s
  | _ => false

/-- Digits of a numeral read as a natural number. -/
def digitsToNat (l : List Char) : Nat :=
  l.foldl (fun acc c => acc * 10 + (c.toNat - 48)) 0

/-- Strip whitespace from both ends of a character list. -/
def trimChars (l : List Char) : List Char :=
  ((l.dropWhile Char.isWhitespace).reverse.dropWhile Char.isWhitespace).reverse

/-- Split a character list on a separator character; the separator is
dropped, empty segments are kept. -/
def splitOnChar (c : Char) : List Char → List (List Char)
  | [] => [[]]
  | x :: rest =>
    if x = c then [] :: splitOnChar c rest
    else
      match splitOnChar c rest with
      | [] => [[x]]
      | h :: t => (x :: h) :: t

/-- Mantissa of a Python float literal: `digits`, `digits.digits`, `digits.`
or `.digits`. -/
def parseMantissa (l : List Char) : Option Rat :=
  match splitOnChar '.' l with
  | [i] =>
    if !i.isEmpty && i.all Char.isDigit then
      some ((digitsToNat i : Nat) : Rat)
    else none
  | [i, f] =>
    if (!i.isEmpty || !f.isEmpty) && i.all Char.isDigit && f.all Char.isDigit then
      some (((digitsToNat i : Nat) : Rat)
        + ((digitsToNat f : Nat) : Rat) / ((10 : Rat) ^ f.length))
    else none
  | _ => none

/-- Exponent part of a Python float literal: optional sign, then digits. -/
def parseExp (l : List Char) : Option Int :=
  let sg : Int := match l with | '-' :: _ => -1 | _ => 1
  let u := match l with | '-' :: rest => rest | '+' :: rest => rest | rest => rest
  if !u.isEmpty && u.all Char.isDigit then some (sg * (digitsToNat u : Int)) else none

/-- Python `float(s)` on a string, restricted to finite literals: optional
surrounding whitespace, optional sign, decimal mantissa, optional exponent.
Non-finite literals (`inf`, `nan`) and digit underscores are outside the
numeric domain of this embedding and are not exercised by any claim. -/
def parseFloat (s : String) : Option Rat :=
  let t0 := trimChars s.toList
  let neg : Bool := match t0 with | '-' :: _ => true | _ => false
  let t1 := match t0 with | '-' :: rest => rest | '+' :: rest => rest | rest => rest
  let t := t1.map Char.toLower
  let core : Option Rat :=
    match splitOnChar 'e' t with
    | [m] => parseMantissa m
    | [m, e] =>
      match parseMantissa m, parseExp e with
      | some mv, some ev =>
        some (if 0 ≤ ev then mv * (10 : Rat) ^ ev.toNat else mv / (10 : Rat) ^ (-ev).toNat)
      | _, _ => none
    | _ => none
  core.map fun q => if neg then -q else q

/-- Python `float(x)` on a JSON value: numbers pass through, booleans become
`0`/`1`, strings are parsed (`ValueError` when unparsable), and `None`, lists
and dicts raise `TypeError` — which the source's `except` clauses do not
catch. -/
def pyFloat (j : Json) : Except PyExc Rat :=
  match j with
  | .num q => .ok q
  | .bool b => .ok (if b then 1 else 0)
  | .str s =>
    match parseFloat s with
    | some q => .ok q
    | none => .error .valueError
  | _ => .error .typeError

/-- One cookie of the `curl_cffi` jar, with every attribute needed to replay
a session. -/
structure Cookie where
  name : String
  value : String
  domain : String
  path : String
  expires : Option Nat
  secure : Bool
  httpOnly : Bool
deriving DecidableEq

/-- Cookies of one domain: the `path → name → Cookie` mapping nested under a
domain key of the jar's internal `_cookies` dict. -/
abbrev DomainCookies := List (String × List (String × Cookie))

/-- The jar's internal `_cookies` dict: `domain → path → name → Cookie`, with
unique keys at each level as in a Python dict. -/
abbrev CookieMap := List (String × DomainCookies)

/-- Python `d[k] = v` on an association-list dict: replace the first binding
of `k`, or append a fresh one. -/
def insertKey {β : Type} (m : List (String × β)) (k : String) (v : β) : List (String × β) :=
  match m with
  | [] => [(k, v)]
  | (k', v') :: rest => if k' = k then (k, v) :: rest else (k', v') :: insertKey rest k v

/-- Python `old.update(new)`: insert every binding of `new` into `old`, in
order. `_load_credentials` applies this at the domain level of the jar. -/
def dictUpdate {β : Type} (old new : List (String × β)) : List (String × β) :=
  new.foldl (fun acc kv => insertKey acc kv.1 kv.2) old

/-- The on-disk credential cache: the pickled `{"cookies": _cookies}` blob
written by `_save_credentials`. Pickling the Lean value is the identity. -/
structure CredFile where
  cookies : CookieMap

/-- Client state together with the one piece of external state the client
touches: `credFile` is the credential cache file on disk (`none` = absent). -/
structure PlynkState where
  username : String
  password : String
  proxy_url : Option String
  proxy_auth : Option (String × String)
  logged_in : Bool
  account_number : Option Json
  cookies : CookieMap
  credFile : Option CredFile

/-- Observable actions of one run: each network request (the authentication
request also records the cookie jar and cache file as they stand when it is
sent) and each credential-file operation. -/
inductive Event where
  | verifyRequest : Event
  | authRequest : CookieMap → Option CredFile → Event
  | pollRequest : Event
  | detailsRequest : Event
  | dataRequest : String → Event
  | clearCredentials : Event
  | saveCredentials : Event

/-- Embeds `_set_session`: a fresh session with an empty cookie jar, keeping
the client's proxy configuration (the record update touches neither
`proxy_url` nor `proxy_auth`). -/
def set_session (st : PlynkState) : PlynkState :=
  { st with cookies := [] }

/-- Embeds `_clear_credentials`: delete the cache file if present, then
`_set_session` replaces the session by a fresh one with the same proxy
settings, discarding all cookies. -/
def clear_credentials (st : PlynkState) : PlynkState :=
  set_session { st with credFile := none }

/-- Embeds `_save_credentials`: write `{"cookies": <jar's _cookies>}` to the
cache file. -/
def save_credentials (st : PlynkState) : PlynkState :=
  { st with credFile := some ⟨st.cookies⟩ }

/-- Embeds `_load_credentials`: if the cache file exists, merge its cookie
dict into the live jar with `dict.update`; a missing file is a no-op. -/
def load_credentials (st : PlynkState) : PlynkState :=
  match st.credFile with
  | none => st
  | some f => { st with cookies := dictUpdate st.cookies f.cookies }

/-- Embeds `Plynk.__init__` given the cache file currently on disk: fresh
session with an empty jar, `logged_in = False`, no account number, then
`_load_credentials`. -/
def plynk_init (username password : String) (proxy_url : Option String)
    (proxy_auth : Option (String × String)) (file : Option CredFile) : PlynkState :=
  load_credentials
    { username := username, password := password, proxy_url := proxy_url,
      proxy_auth := proxy_auth, logged_in := false,
      account_number := none, cookies := [], credFile := file }

/-- One HTTP response: status code and parsed JSON body. -/
structure HttpResponse where
  statusCode : Nat
  body : Json

/-- The network oracle for one run of `login`: what each request would
receive. `verify` is `.error ()` when the probe raises a transport
exception. The details endpoint is queried at most once per run
(`_fetch_account_number`), on whichever path is taken. -/
structure LoginEnv where
  verify : Except Unit HttpResponse
  authStatus : Nat
  pollStatus : Nat
  pollBody : Json
  fetchStatus : Nat
  fetchBody : Json

/-- Errors propagating out of the client's methods. `parseError` and
`loginRejected` are the source's explicit `RuntimeError` raises;
`uncaught` is a Python exception escaping a `try/except` that does not
catch it. -/
inductive PlynkError where
  | notLoggedIn : PlynkError
  | transport : Nat → PlynkError
  | loginRejected : Json → PlynkError
  | otpRequired : PlynkError
  | parseError : String → PlynkError
  | uncaught : PyExc → PlynkError

/-- Embeds `raise_for_status`: an HTTP error status (4xx/5xx) raises. -/
def raiseForStatus (status : Nat) : Except PlynkError Unit :=
  if 400 ≤ status then .error (.transport status) else .ok ()

/-- Embeds `_verify_login`: true iff the probe returns without exception with
status exactly 200; every exception is swallowed into `false`. -/
def verify_login (env : LoginEnv) : Bool :=
  match env.verify with
  | .error _ => false
  | .ok r => r.statusCode == 200

/-- Embeds the extraction
`data['user']['customer']['accounts'][0]['accountNumber']` of
`_fetch_account_number`. -/
def extractAccountNumber (body : Json) : Except PyExc Json := do
  let u ← pyGetItemStr body "user"
  let c ← pyGetItemStr u "customer"
  let a ← pyGetItemStr c "accounts"
  let a0 ← pyGetIdx0 a
  pyGetItemStr a0 "accountNumber"

/-- Embeds `_fetch_account_number`: `raise_for_status`, then the extraction
with `except (KeyError, IndexError)` re-raised as a parse `RuntimeError`;
a `TypeError` escapes uncaught. -/
def fetch_account_number (status : Nat) (body : Json) : Except PlynkError Json :=
  match raiseForStatus status with
  | .error e => .error e
  | .ok _ =>
    match extractAccountNumber body with
    | .ok v => .ok v
    | .error .keyError => .error (.parseError "Could not parse account number from details response")
    | .error .indexError => .error (.parseError "Could not parse account number from details response")
    | .error e => .error (.uncaught e)

/-- Embeds
`poll_data.get("responseBaseInfo", \x7b\x7d).get("status", \x7b\x7d).get("message", "")`. -/
def pollMessage (body : Json) : Except PyExc Json := do
  let a ← pyDictGet body "responseBaseInfo" (Json.obj [])
  let b ← pyDictGet a "status" (Json.obj [])
  pyDictGet b "message" (Json.str "")

/-- Result of one run of `login`: returned value or exception, the state it
leaves behind, and the trace of its observable actions in order. -/
structure LoginResult where
  result : Except PlynkError Bool
  state : PlynkState
  trace : List Event

/-- Embeds `login`: verify probe; on success mark logged in and fetch the
account number; otherwise clear credentials, authenticate with the password,
poll, branch on `responseBaseInfo.status.message`, and on `"Session Created"`
mark logged in, fetch the account number and save credentials. -/
def login (env : LoginEnv) (st : PlynkState) : LoginResult :=
  if verify_login env then
    let st1 := { st with logged_in := true }
    let tr := [Event.verifyRequest, Event.detailsRequest]
    match fetch_account_number env.fetchStatus env.fetchBody with
    | .error e => { result := .error e, state := st1, trace := tr }
    | .ok num => { result := .ok true, state := { st1 with account_number := some num }, trace := tr }
  else
    let st1 := clear_credentials st
    let tr1 := [Event.verifyRequest, Event.clearCredentials,
      Event.authRequest st1.cookies st1.credFile]
    match raiseForStatus env.authStatus with
    | .error e => { result := .error e, state := st1, trace := tr1 }
    | .ok _ =>
      let tr2 := tr1 ++ [Event.pollRequest]
      match raiseForStatus env.pollStatus with
      | .error e => { result := .error e, state := st1, trace := tr2 }
      | .ok _ =>
        match pollMessage env.pollBody with
        | .error e => { result := .error (.uncaught e), state := st1, trace := tr2 }
        | .ok msg =>
          if pyEqStr msg "Authentication Not Completed" then
            { result := .error .otpRequired, state := st1, trace := tr2 }
          else if !pyEqStr msg "Session Created" then
            { result := .error (.loginRejected msg), state := st1, trace := tr2 }
          else
            let st2 := { st1 with logged_in := true }
            let tr3 := tr2 ++ [Event.detailsRequest]
            match fetch_account_number env.fetchStatus env.fetchBody with
            | .error e => { result := .error e, state := st2, trace := tr3 }
            | .ok num =>
              let st3 := save_credentials { st2 with account_number := some num }
              { result := .ok true, state := st3, trace := tr3 ++ [Event.saveCredentials] }

/-- Embeds the extraction
`response_json["accounts"][0]["balanceSummary"]["totalAssets"]` followed by
`float(...)` in `get_account_total`, exactly the chain inside its `try`. -/
def extractTotal (accounts : Json) : Except PyExc Rat := do
  let a0 ← pyGetIdx0 accounts
  let bs ← pyGetItemStr a0 "balanceSummary"
  let ta ← pyGetItemStr bs "totalAssets"
  pyFloat ta

/-- Embeds `get_account_total` (wrapped by `check_login`), applied to the
status and body of its one balance-endpoint response. The `if "accounts" in
response_json and response_json["accounts"]` truthiness test happens outside
the `try`; the `try` catches `KeyError`, `ValueError` and `IndexError` and
re-raises a parse `RuntimeError`, while a `TypeError` escapes uncaught. -/
def get_account_total (st : PlynkState) (status : Nat) (body : Json) :
    Except PlynkError Rat × List Event :=
  if !st.logged_in then (.error .notLoggedIn, [])
  else
    let tr := [Event.dataRequest "balance"]
    match raiseForStatus status with
    | .error e => (.error e, tr)
    | .ok _ =>
      match pyContains body "accounts" with
      | .error e => (.error (.uncaught e), tr)
      | .ok false => (.ok 0, tr)
      | .ok true =>
        match pyGetItemStr body "accounts" with
        | .error e => (.error (.uncaught e), tr)
        | .ok accounts =>
          if !jsonTruthy accounts then (.ok 0, tr)
          else
            match extractTotal accounts with
            | .ok q => (.ok q, tr)
            | .error .keyError => (.error (.parseError "Unable to parse account total value."), tr)
            | .error .valueError => (.error (.parseError "Unable to parse account total value."), tr)
            | .error .indexError => (.error (.parseError "Unable to parse account total value."), tr)
            | .error e => (.error (.uncaught e), tr)

/-- Embeds `get_positions` (wrapped by `check_login`): `raise_for_status`,
then the parsed body is returned as is. -/
def get_positions (st : PlynkState) (status : Nat) (body : Json) :
    Except PlynkError Json × List Event :=
  if !st.logged_in then (.error .notLoggedIn, [])
  else
    let tr := [Event.dataRequest "positions"]
    match raiseForStatus status with
    | .error e => (.error e, tr)
    | .ok _ => (.ok body, tr)

/-- Embeds the extraction
`result["accounts"][0].get("positionsSummary", \x7b\x7d).get("positions", [])`
of `get_account_holdings`; no `try` surrounds it, so every exception
escapes. -/
def extractHoldings (resp : Json) : Except PyExc Json := do
  let accounts ← pyGetItemStr resp "accounts"
  let a0 ← pyGetIdx0 accounts
  let ps ← pyDictGet a0 "positionsSummary" (Json.obj [])
  pyDictGet ps "positions" (Json.arr [])

/-- Embeds `get_account_holdings` (wrapped by `check_login`): delegates to
`get_positions`, then extracts the positions list. -/
def get_account_holdings (st : PlynkState) (status : Nat) (body : Json) :
    Except PlynkError Json × List Event :=
  if !st.logged_in then (.error .notLoggedIn, [])
  else
    match get_positions st status body with
    | (.error e, tr) => (.error e, tr)
    | (.ok resp, tr) =>
      match extractHoldings resp with
      | .ok v => (.ok v, tr)
      | .error e => (.error (.uncaught e), tr)

/-- Embeds `get_stock_details` (wrapped by `check_login`): `raise_for_status`,
then the parsed body is returned as is. -/
def get_stock_details (st : PlynkState) (status : Nat) (body : Json) :
    Except PlynkError Json × List Event :=
  if !st.logged_in then (.error .notLoggedIn, [])
  else
    let tr := [Event.dataRequest "stock_details"]
    match raiseForStatus status with
    | .error e => (.error e, tr)
    | .ok _ => (.ok body, tr)

/-- Embeds the extraction `float(response["securityDetails"]["lastPrice"])`
of `get_stock_price`, exactly the chain inside its `try`. -/
def extractLastPrice (resp : Json) : Except PyExc Rat := do
  let sd ← pyGetItemStr resp "securityDetails"
  let lp ← pyGetItemStr sd "lastPrice"
  pyFloat lp

/-- Embeds `get_stock_price` (wrapped by `check_login`): delegates to
`get_stock_details`, then converts `securityDetails.lastPrice` to a float.
The `try` catches only `KeyError` and `ValueError`; a `TypeError` (e.g. a
JSON `null` price) escapes uncaught. -/
def get_stock_price (st : PlynkState) (status : Nat) (body : Json) :
    Except PlynkError Rat × List Event :=
  if !st.logged_in then (.error .notLoggedIn, [])
  else
    match get_stock_details st status body with
    | (.error e, tr) => (.error e, tr)
    | (.ok resp, tr) =>
      match extractLastPrice resp with
      | .ok q => (.ok q, tr)
      | .error .keyError => (.error (.parseError "Unable to get float value for stock price."), tr)
      | .error .valueError => (.error (.parseError "Unable to get float value for stock price."), tr)
      | .error e => (.error (.uncaught e), tr)

/-! ## Helper lemmas -/

theorem insertKey_cons_of_ne {β : Type} (k k' : String) (v : β) (v' : β)
    (m : List (String × β)) (h : k' ≠ k) :
    insertKey ((k', v') :: m) k v = (k', v') :: insertKey m k v := by
  simp [insertKey, h]

theorem foldl_insertKey_cons {β : Type} (rest : List (String × β)) (acc : List (String × β))
    (k : String) (v : β) (h : k ∉ rest.map Prod.fst) :
    rest.foldl (fun a kv => insertKey a kv.1 kv.2) ((k, v) :: acc)
      = (k, v) :: rest.foldl (fun a kv => insertKey a kv.1 kv.2) acc := by
  induction rest generalizing acc with
  | nil => rfl
  | cons e tl ih =>
    simp only [List.map_cons, List.mem_cons] at h
    push_neg at h
    simp only [List.foldl_cons]
    rw [insertKey_cons_of_ne e.1 k e.2 v acc h.1, ih _ h.2]

/-- Updating an empty dict with a dict `m` (unique keys, as every Python dict
has) reproduces `m` exactly. -/
theorem dictUpdate_nil {β : Type} (m : List (String × β)) (h : (m.map Prod.fst).Nodup) :
    dictUpdate [] m = m := by
  induction m with
  | nil => rfl
  | cons e tl ih =>
    simp only [List.map_cons, List.nodup_cons] at h
    show (e :: tl).foldl (fun a kv => insertKey a kv.1 kv.2) [] = e :: tl
    simp only [List.foldl_cons]
    have : insertKey ([] : List (String × β)) e.1 e.2 = [(e.1, e.2)] := rfl
    rw [this]
    have := foldl_insertKey_cons tl [] e.1 e.2 h.1
    rw [this]
    exact congrArg _ (ih h.2)

theorem pyEqStr_iff (j : Json) (s : String) : pyEqStr j s = true ↔ j = Json.str s := by
  cases j <;> simp [pyEqStr]

/-- No run of `login` touches the client's proxy configuration. -/
theorem login_preserves_proxy (env : LoginEnv) (st : PlynkState) :
    (login env st).state.proxy_url = st.proxy_url ∧
    (login env st).state.proxy_auth = st.proxy_auth := by
  unfold login
  split
  · split <;>
      simp [clear_credentials, set_session, save_credentials]
  · split
    · simp [clear_credentials, set_session, save_credentials]
    · split
      · simp [clear_credentials, set_session, save_credentials]
      · split
        · simp [clear_credentials, set_session, save_credentials]
        · split
          · simp [clear_credentials, set_session, save_credentials]
          · split
            · simp [clear_credentials, set_session, save_credentials]
            · split <;>
                simp [clear_credentials, set_session, save_credentials]

/-! ## Concrete example inputs used by the witnesses -/

/-- A client that has not logged in, with no cookies and no cache file. -/
def stLoggedOut : PlynkState :=
  { username := "u", password := "p", proxy_url := none, proxy_auth := none,
    logged_in := false, account_number := none, cookies := [], credFile := none }

/-- A client after a successful login. -/
def stLoggedIn : PlynkState :=
  { stLoggedOut with logged_in := true }

/-- A cookie jar with one fully attributed session cookie. -/
def exampleJar : CookieMap :=
  [("example.com", [("/", [("sid",
    { name := "sid", value := "abc", domain := "example.com", path := "/",
      expires := some 1735689600, secure := true, httpOnly := true })])])]

/-- A client holding `exampleJar` with a matching cache file on disk. -/
def stWithCreds : PlynkState :=
  { username := "u", password := "p", proxy_url := some "http://proxy:8080",
    proxy_auth := some ("pu", "pp"), logged_in := false, account_number := none,
    cookies := exampleJar, credFile := some ⟨exampleJar⟩ }

/-- A details-endpoint body whose account number parses. -/
def goodDetailsBody : Json :=
  Json.obj [("user", Json.obj [("customer", Json.obj [("accounts",
    Json.arr [Json.obj [("accountNumber", Json.str "123")]])])])]

/-- An oracle whose verify probe answers 200 (session still valid). -/
def reuseEnv : LoginEnv :=
  { verify := .ok ⟨200, Json.null⟩, authStatus := 200, pollStatus := 200,
    pollBody := Json.null, fetchStatus := 200, fetchBody := goodDetailsBody }

/-- An oracle whose verify probe answers 401 and whose poll reports
`"Session Created"`. -/
def freshOkEnv : LoginEnv :=
  { verify := .ok ⟨401, Json.null⟩, authStatus := 200, pollStatus := 200,
    pollBody := Json.obj [("responseBaseInfo", Json.obj [("status",
      Json.obj [("message", Json.str "Session Created")])])],
    fetchStatus := 200, fetchBody := goodDetailsBody }

/-- Like `freshOkEnv`, but the details body does not parse, so the
account-number fetch fails after the session is created. -/
def freshBadFetchEnv : LoginEnv :=
  { verify := .ok ⟨401, Json.null⟩, authStatus := 200, pollStatus := 200,
    pollBody := Json.obj [("responseBaseInfo", Json.obj [("status",
      Json.obj [("message", Json.str "Session Created")])])],
    fetchStatus := 200, fetchBody := Json.obj [] }

/-- Like `reuseEnv`, but the details body does not parse, so the
account-number fetch fails after the 200 probe. -/
def reuseBadFetchEnv : LoginEnv :=
  { verify := .ok ⟨200, Json.null⟩, authStatus := 200, pollStatus := 200,
    pollBody := Json.null, fetchStatus := 200, fetchBody := Json.obj [] }

/-- An oracle whose poll reports `"Authentication Not Completed"`. -/
def otpEnv : LoginEnv :=
  { verify := .ok ⟨401, Json.null⟩, authStatus := 200, pollStatus := 200,
    pollBody := Json.obj [("responseBaseInfo", Json.obj [("status",
      Json.obj [("message", Json.str "Authentication Not Completed")])])],
    fetchStatus := 200, fetchBody := goodDetailsBody }

/-- An oracle whose poll reports an unexpected status. -/
def rejectEnv : LoginEnv :=
  { verify := .ok ⟨401, Json.null⟩, authStatus := 200, pollStatus := 200,
    pollBody := Json.obj [("responseBaseInfo", Json.obj [("status",
      Json.obj [("message", Json.str "Something Else")])])],
    fetchStatus := 200, fetchBody := goodDetailsBody }

/-! ## Claim theorems -/

/-- Claim C1: every Data Accessor (`get_account_total`, `get_positions`,
`get_account_holdings`, `get_stock_price`, `get_stock_details`) called on a
client whose `logged_in` field is false fails with `NotLoggedInError` and
issues zero network requests: its trace is empty, and the accessor never
consults the network oracle or the state beyond the gate. -/
theorem accessors_require_login (st : PlynkState) (h : st.logged_in = false)
    (status : Nat) (body : Json) :
    get_account_total st status body = (.error .notLoggedIn, []) ∧
    get_positions st status body = (.error .notLoggedIn, []) ∧
    get_account_holdings st status body = (.error .notLoggedIn, []) ∧
    get_stock_price st status body = (.error .notLoggedIn, []) ∧
    get_stock_details st status body = (.error .notLoggedIn, []) := by
  simp [get_account_total, get_positions, get_account_holdings, get_stock_price,
    get_stock_details, h]

/-- Witness for C1 at a concrete logged-out client and response. -/
theorem accessors_require_login_witness :
    get_account_total stLoggedOut 200 Json.null = (.error .notLoggedIn, []) ∧
    get_positions stLoggedOut 200 Json.null = (.error .notLoggedIn, []) ∧
    get_account_holdings stLoggedOut 200 Json.null = (.error .notLoggedIn, []) ∧
    get_stock_price stLoggedOut 200 Json.null = (.error .notLoggedIn, []) ∧
    get_stock_details stLoggedOut 200 Json.null = (.error .notLoggedIn, []) :=
  accessors_require_login stLoggedOut rfl 200 Json.null

/-- Claim C3: when the verify probe answers 200, `login` returns success with
`logged_in` true and the account number fetched, issues no
password-authentication request and no poll request, and never writes the
credential cache file (which stays exactly as it was). -/
theorem login_session_reuse (env : LoginEnv) (st : PlynkState)
    (hver : verify_login env = true) :
    (login env st).state.logged_in = true ∧
    (login env st).state.credFile = st.credFile ∧
    (∀ c f, Event.authRequest c f ∉ (login env st).trace) ∧
    Event.pollRequest ∉ (login env st).trace ∧
    Event.saveCredentials ∉ (login env st).trace ∧
    (∀ v, fetch_account_number env.fetchStatus env.fetchBody = .ok v →
      (login env st).result = .ok true ∧
      (login env st).state.account_number = some v) := by
  cases hf : fetch_account_number env.fetchStatus env.fetchBody <;>
    simp [login, hver, hf]

/-- Witness for C3: a session-reuse run against a concrete oracle. -/
theorem login_session_reuse_witness :
    (login reuseEnv stLoggedOut).result = .ok true ∧
    (login reuseEnv stLoggedOut).state.account_number = some (Json.str "123") ∧
    Event.pollRequest ∉ (login reuseEnv stLoggedOut).trace :=
  ⟨((login_session_reuse reuseEnv stLoggedOut rfl).2.2.2.2.2 (Json.str "123") rfl).1,
   ((login_session_reuse reuseEnv stLoggedOut rfl).2.2.2.2.2 (Json.str "123") rfl).2,
   (login_session_reuse reuseEnv stLoggedOut rfl).2.2.2.1⟩

/-- Claim C4: when the verify probe errors or answers non-200, the trace of
`login` begins with the probe, then the credential clearing, then the
password-authentication request — so the clearing strictly precedes the
authentication request, and that request is sent while the cookie jar is
fresh (empty), the cache file is deleted, and the proxy settings are
unchanged. -/
theorem login_clears_before_auth (env : LoginEnv) (st : PlynkState)
    (hver : verify_login env = false) :
    (∃ rest, (login env st).trace =
      Event.verifyRequest :: Event.clearCredentials ::
        Event.authRequest [] none :: rest) ∧
    (login env st).state.proxy_url = st.proxy_url ∧
    (login env st).state.proxy_auth = st.proxy_auth := by
  refine ⟨?_, (login_preserves_proxy env st).1, (login_preserves_proxy env st).2⟩
  unfold login
  rw [hver]
  simp only [Bool.false_eq_true, if_false]
  split
  · exact ⟨[], rfl⟩
  · split
    · exact ⟨[Event.pollRequest], rfl⟩
    · split
      · exact ⟨[Event.pollRequest], rfl⟩
      · split
        · exact ⟨[Event.pollRequest], rfl⟩
        · split
          · exact ⟨[Event.pollRequest], rfl⟩
          · split
            · exact ⟨[Event.pollRequest, Event.detailsRequest], rfl⟩
            · exact ⟨[Event.pollRequest, Event.detailsRequest, Event.saveCredentials], rfl⟩

/-- Witness for C4: a failed probe at a concrete oracle, on a client that
holds cookies, a cache file and a proxy configuration. -/
theorem login_clears_before_auth_witness :
    (∃ rest, (login freshOkEnv stWithCreds).trace =
      Event.verifyRequest :: Event.clearCredentials ::
        Event.authRequest [] none :: rest) ∧
    (login freshOkEnv stWithCreds).state.proxy_url = some "http://proxy:8080" ∧
    (login freshOkEnv stWithCreds).state.proxy_auth = some ("pu", "pp") :=
  ⟨(login_clears_before_auth freshOkEnv stWithCreds rfl).1,
   (login_clears_before_auth freshOkEnv stWithCreds rfl).2.1,
   (login_clears_before_auth freshOkEnv stWithCreds rfl).2.2⟩

/-- Claim C2: on the fresh-login path, once the poll response parses to a
status message, `login` branches on it: `"Authentication Not Completed"`
raises `OtpRequiredUnsupported` (the `NotImplementedError`) with `logged_in`
still false; any other message different from `"Session Created"` raises a
`LoginRejectedError` carrying the raw status, with `logged_in` still false;
`"Session Created"` marks the client logged in, fetches the account number,
writes the credential cache and returns `True`. -/
theorem login_poll_status_branches (env : LoginEnv) (st : PlynkState) (m : Json)
    (hlog : st.logged_in = false)
    (hver : verify_login env = false)
    (hauth : env.authStatus < 400)
    (hpoll : env.pollStatus < 400)
    (hmsg : pollMessage env.pollBody = .ok m) :
    (m = Json.str "Authentication Not Completed" →
      (login env st).result = .error .otpRequired ∧
      (login env st).state.logged_in = false) ∧
    (m ≠ Json.str "Authentication Not Completed" → m ≠ Json.str "Session Created" →
      (login env st).result = .error (.loginRejected m) ∧
      (login env st).state.logged_in = false) ∧
    (m = Json.str "Session Created" →
      ∀ v, fetch_account_number env.fetchStatus env.fetchBody = .ok v →
      (login env st).result = .ok true ∧
      (login env st).state.logged_in = true ∧
      (login env st).state.account_number = some v ∧
      (login env st).state.credFile.isSome = true ∧
      Event.saveCredentials ∈ (login env st).trace) := by
  have ha : raiseForStatus env.authStatus = .ok () := by
    unfold raiseForStatus
    rw [if_neg (by omega)]
  have hp : raiseForStatus env.pollStatus = .ok () := by
    unfold raiseForStatus
    rw [if_neg (by omega)]
  refine ⟨fun hm => ?_, fun hm1 hm2 => ?_, fun hm v hv => ?_⟩
  · subst hm
    simp [login, hver, ha, hp, hmsg, pyEqStr, clear_credentials, set_session, hlog]
  · have e1 : pyEqStr m "Authentication Not Completed" = false := by
      cases hb : pyEqStr m "Authentication Not Completed"
      · rfl
      · exact absurd ((pyEqStr_iff m _).mp hb) hm1
    have e2 : pyEqStr m "Session Created" = false := by
      cases hb : pyEqStr m "Session Created"
      · rfl
      · exact absurd ((pyEqStr_iff m _).mp hb) hm2
    simp [login, hver, ha, hp, hmsg, e1, e2, clear_credentials, set_session, hlog]
  · subst hm
    simp [login, hver, ha, hp, hmsg, hv, pyEqStr, clear_credentials, set_session,
      save_credentials]

/-- Witness for C2: the three poll outcomes at concrete oracles, each run on
a logged-out client. -/
theorem login_poll_status_branches_witness :
    ((login otpEnv stLoggedOut).result = .error .otpRequired ∧
     (login otpEnv stLoggedOut).state.logged_in = false) ∧
    ((login rejectEnv stLoggedOut).result = .error (.loginRejected (Json.str "Something Else")) ∧
     (login rejectEnv stLoggedOut).state.logged_in = false) ∧
    ((login freshOkEnv stLoggedOut).result = .ok true ∧
     (login freshOkEnv stLoggedOut).state.logged_in = true) := by
  refine ⟨?_, ?_, ?_⟩
  · exact (login_poll_status_branches otpEnv stLoggedOut
      (Json.str "Authentication Not Completed")
      rfl rfl (by decide) (by decide) rfl).1 rfl
  · exact (login_poll_status_branches rejectEnv stLoggedOut (Json.str "Something Else")
      rfl rfl (by decide) (by decide) rfl).2.1 (by simp) (by simp)
  · have h := (login_poll_status_branches freshOkEnv stLoggedOut (Json.str "Session Created")
      rfl rfl (by decide) (by decide) rfl).2.2 rfl (Json.str "123") rfl
    exact ⟨h.1, h.2.1⟩

/-- Claim C10: `login` marks the client logged in before fetching the account
number on both paths, so a failing fetch propagates its error while leaving
`logged_in` true; on the session-reuse path the cache file is untouched, and
on the fresh path it has been deleted and is never rewritten. -/
theorem login_not_atomic_on_fetch_failure (env : LoginEnv) (st : PlynkState)
    (e : PlynkError)
    (hfetch : fetch_account_number env.fetchStatus env.fetchBody = .error e) :
    (verify_login env = true →
      (login env st).result = .error e ∧
      (login env st).state.logged_in = true ∧
      (login env st).state.credFile = st.credFile ∧
      Event.saveCredentials ∉ (login env st).trace) ∧
    (verify_login env = false → env.authStatus < 400 → env.pollStatus < 400 →
      pollMessage env.pollBody = .ok (Json.str "Session Created") →
      (login env st).result = .error e ∧
      (login env st).state.logged_in = true ∧
      (login env st).state.credFile = none ∧
      Event.saveCredentials ∉ (login env st).trace) := by
  refine ⟨fun hver => ?_, fun hver hauth hpoll hmsg => ?_⟩
  · simp [login, hver, hfetch]
  · have ha : raiseForStatus env.authStatus = .ok () := by
      unfold raiseForStatus
      rw [if_neg (by omega)]
    have hp : raiseForStatus env.pollStatus = .ok () := by
      unfold raiseForStatus
      rw [if_neg (by omega)]
    simp [login, hver, ha, hp, hmsg, hfetch, pyEqStr, clear_credentials, set_session]

/-- Witness for C10: a failing details body after both a 200 probe and a
fresh `"Session Created"` login. -/
theorem login_not_atomic_on_fetch_failure_witness :
    ((login reuseBadFetchEnv stWithCreds).result
      = .error (.parseError "Could not parse account number from details response") ∧
     (login reuseBadFetchEnv stWithCreds).state.logged_in = true ∧
     (login reuseBadFetchEnv stWithCreds).state.credFile = some ⟨exampleJar⟩) ∧
    ((login freshBadFetchEnv stWithCreds).result
      = .error (.parseError "Could not parse account number from details response") ∧
     (login freshBadFetchEnv stWithCreds).state.logged_in = true ∧
     (login freshBadFetchEnv stWithCreds).state.credFile = none) := by
  constructor
  · have h := (login_not_atomic_on_fetch_failure reuseBadFetchEnv stWithCreds
      (.parseError "Could not parse account number from details response") rfl).1 rfl
    exact ⟨h.1, h.2.1, h.2.2.1⟩
  · have h := (login_not_atomic_on_fetch_failure freshBadFetchEnv stWithCreds
      (.parseError "Could not parse account number from details response") rfl).2
      rfl (by decide) (by decide) rfl
    exact ⟨h.1, h.2.1, h.2.2.1⟩

/-- Claim C9: `login` never returns `False`: every run either returns `True`
or raises. -/
theorem login_never_returns_false (env : LoginEnv) (st : PlynkState) :
    (login env st).result ≠ .ok false := by
  unfold login
  split
  · split <;> simp
  · split
    · simp
    · split
      · simp
      · split
        · simp
        · split
          · simp
          · split
            · simp
            · split <;> simp

/-- Claim C5: for a logged-in client, `get_account_total` returns `0.0` on
the bodies `{"accounts":[]}` and `{}` (no error), and raises the parse
`RuntimeError` on `{"accounts":[{"balanceSummary":{}}]}`. -/
theorem get_account_total_edge_cases (st : PlynkState) (h : st.logged_in = true) :
    (get_account_total st 200 (Json.obj [("accounts", Json.arr [])])).1 = .ok 0 ∧
    (get_account_total st 200 (Json.obj [])).1 = .ok 0 ∧
    (get_account_total st 200 (Json.obj [("accounts",
      Json.arr [Json.obj [("balanceSummary", Json.obj [])]])])).1
      = .error (.parseError "Unable to parse account total value.") := by
  refine ⟨?_, ?_, ?_⟩ <;>
    simp [get_account_total, h, raiseForStatus, pyContains, alistLookup, pyGetItemStr,
      jsonTruthy, extractTotal, pyGetIdx0, Except.bind, bind]

/-- Witness for C5 at a concrete logged-in client. -/
theorem get_account_total_edge_cases_witness :
    (get_account_total stLoggedIn 200 (Json.obj [("accounts", Json.arr [])])).1 = .ok 0 ∧
    (get_account_total stLoggedIn 200 (Json.obj [])).1 = .ok 0 ∧
    (get_account_total stLoggedIn 200 (Json.obj [("accounts",
      Json.arr [Json.obj [("balanceSummary", Json.obj [])]])])).1
      = .error (.parseError "Unable to parse account total value.") :=
  get_account_total_edge_cases stLoggedIn rfl

/-- Counterexample to C6 as stated: the body `{"accounts":[]}` has the
`"accounts"` key present with an empty value, yet `get_account_total` returns
`0.0` instead of raising the parse error — the code tests truthiness, not
mere key presence. -/
theorem get_account_total_empty_accounts_counterexample :
    (get_account_total stLoggedIn 200 (Json.obj [("accounts", Json.arr [])])).1 = .ok 0 ∧
    (get_account_total stLoggedIn 200 (Json.obj [("accounts", Json.arr [])])).1
      ≠ .error (.parseError "Unable to parse account total value.") := by
  constructor
  · rfl
  · rw [show (get_account_total stLoggedIn 200 (Json.obj [("accounts", Json.arr [])])).1
      = (.ok 0 : Except PlynkError Rat) from rfl]
    simp

/-- Claim C6, amended: for a logged-in client and an object response body,
`get_account_total` returns `0.0` when the `"accounts"` key is absent or its
value is falsy (for example the empty list), and raises the parse
`RuntimeError` when the value is truthy but the `totalAssets` extraction
fails with a key, index or value error. -/
theorem get_account_total_parse_policy (st : PlynkState) (h : st.logged_in = true)
    (kvs : List (String × Json)) :
    (alistLookup "accounts" kvs = none →
      (get_account_total st 200 (Json.obj kvs)).1 = .ok 0) ∧
    (∀ a, alistLookup "accounts" kvs = some a → jsonTruthy a = false →
      (get_account_total st 200 (Json.obj kvs)).1 = .ok 0) ∧
    (∀ a exc, alistLookup "accounts" kvs = some a → jsonTruthy a = true →
      extractTotal a = .error exc →
      (exc = .keyError ∨ exc = .indexError ∨ exc = .valueError) →
      (get_account_total st 200 (Json.obj kvs)).1
        = .error (.parseError "Unable to parse account total value.")) := by
  refine ⟨fun hk => ?_, fun a hk ht => ?_, fun a exc hk ht he hcls => ?_⟩
  · simp [get_account_total, h, raiseForStatus, pyContains, hk]
  · simp [get_account_total, h, raiseForStatus, pyContains, pyGetItemStr, hk, ht]
  · rcases hcls with rfl | rfl | rfl <;>
      simp [get_account_total, h, raiseForStatus, pyContains, pyGetItemStr, hk, ht, he]

/-- Witness for the amended C6: absent key, falsy value and a key-error
extraction at concrete bodies. -/
theorem get_account_total_parse_policy_witness :
    (get_account_total stLoggedIn 200 (Json.obj [("other", Json.null)])).1 = .ok 0 ∧
    (get_account_total stLoggedIn 200 (Json.obj [("accounts", Json.null)])).1 = .ok 0 ∧
    (get_account_total stLoggedIn 200 (Json.obj [("accounts",
      Json.arr [Json.obj []])])).1
      = .error (.parseError "Unable to parse account total value.") :=
  ⟨(get_account_total_parse_policy stLoggedIn rfl [("other", Json.null)]).1 rfl,
   (get_account_total_parse_policy stLoggedIn rfl [("accounts", Json.null)]).2.1
     Json.null rfl rfl,
   (get_account_total_parse_policy stLoggedIn rfl [("accounts", Json.arr [Json.obj []])]).2.2
     (Json.arr [Json.obj []]) .keyError rfl rfl rfl (Or.inl rfl)⟩

/-- Counterexample to C7 as stated: on the body
`{"securityDetails":{"lastPrice":null}}` the `lastPrice` field is present but
non-numeric, and `get_stock_price` lets the `TypeError` of `float(None)`
escape instead of raising the parse `RuntimeError` — the `except` clause
catches only `KeyError` and `ValueError`. -/
theorem get_stock_price_null_counterexample :
    (get_stock_price stLoggedIn 200 (Json.obj [("securityDetails",
      Json.obj [("lastPrice", Json.null)])])).1 = .error (.uncaught .typeError) ∧
    (get_stock_price stLoggedIn 200 (Json.obj [("securityDetails",
      Json.obj [("lastPrice", Json.null)])])).1
      ≠ .error (.parseError "Unable to get float value for stock price.") := by
  constructor
  · rfl
  · rw [show (get_stock_price stLoggedIn 200 (Json.obj [("securityDetails",
      Json.obj [("lastPrice", Json.null)])])).1
      = (.error (.uncaught .typeError) : Except PlynkError Rat) from rfl]
    simp

/-- Claim C7, amended: for a logged-in client, `get_stock_price` returns
`123.45` on `{"securityDetails":{"lastPrice":"123.45"}}`; it raises the parse
`RuntimeError` when `lastPrice` is missing or is a string that does not parse
as a number; a `lastPrice` of JSON `null` instead raises an uncaught
`TypeError`. -/
theorem get_stock_price_parse_policy (st : PlynkState) (h : st.logged_in = true) :
    (get_stock_price st 200 (Json.obj [("securityDetails",
      Json.obj [("lastPrice", Json.str "123.45")])])).1 = .ok (123.45 : Rat) ∧
    (∀ kvs, alistLookup "lastPrice" kvs = none →
      (get_stock_price st 200 (Json.obj [("securityDetails", Json.obj kvs)])).1
        = .error (.parseError "Unable to get float value for stock price.")) ∧
    (∀ s, parseFloat s = none →
      (get_stock_price st 200 (Json.obj [("securityDetails",
        Json.obj [("lastPrice", Json.str s)])])).1
        = .error (.parseError "Unable to get float value for stock price.")) ∧
    (get_stock_price st 200 (Json.obj [("securityDetails",
      Json.obj [("lastPrice", Json.null)])])).1 = .error (.uncaught .typeError) := by
  refine ⟨?_, fun kvs hk => ?_, fun s hs => ?_, ?_⟩
  · have hv : extractLastPrice (Json.obj [("securityDetails",
        Json.obj [("lastPrice", Json.str "123.45")])])
        = .ok (((123 : Nat) : Rat) + ((45 : Nat) : Rat) / ((10 : Rat) ^ 2)) := rfl
    simp [get_stock_price, get_stock_details, h, raiseForStatus, hv]
    norm_num
  · simp [get_stock_price, get_stock_details, h, raiseForStatus, extractLastPrice,
      pyGetItemStr, alistLookup, hk, Except.bind, bind]
  · simp [get_stock_price, get_stock_details, h, raiseForStatus, extractLastPrice,
      pyGetItemStr, alistLookup, pyFloat, hs, Except.bind, bind]
  · simp [get_stock_price, get_stock_details, h, raiseForStatus, extractLastPrice,
      pyGetItemStr, alistLookup, pyFloat, Except.bind, bind]

/-- Witness for the amended C7 at a concrete logged-in client. -/
theorem get_stock_price_parse_policy_witness :
    (get_stock_price stLoggedIn 200 (Json.obj [("securityDetails",
      Json.obj [("lastPrice", Json.str "123.45")])])).1 = .ok (123.45 : Rat) ∧
    (get_stock_price stLoggedIn 200 (Json.obj [("securityDetails",
      Json.obj [("other", Json.null)])])).1
      = .error (.parseError "Unable to get float value for stock price.") ∧
    (get_stock_price stLoggedIn 200 (Json.obj [("securityDetails",
      Json.obj [("lastPrice", Json.str "not a number")])])).1
      = .error (.parseError "Unable to get float value for stock price.") :=
  ⟨(get_stock_price_parse_policy stLoggedIn rfl).1,
   (get_stock_price_parse_policy stLoggedIn rfl).2.1 [("other", Json.null)] rfl,
   (get_stock_price_parse_policy stLoggedIn rfl).2.2.1 "not a number" rfl⟩

/-- Claim C8: saving the credentials of a client holding any cookie jar and
loading the resulting cache file into a freshly constructed client
reproduces the jar exactly — every cookie with all its attributes (name,
value, domain, path, expiry, secure/httpOnly flags) — hence the outgoing
cookie headers are identical. The only hypothesis is that the jar's domain
keys are distinct, which holds of every Python dict. -/
theorem save_load_roundtrip (st : PlynkState) (u p : String)
    (purl : Option String) (pauth : Option (String × String))
    (h : (st.cookies.map Prod.fst).Nodup) :
    (plynk_init u p purl pauth (save_credentials st).credFile).cookies = st.cookies := by
  simp only [save_credentials, plynk_init, load_credentials]
  exact dictUpdate_nil st.cookies h

/-- Witness for C8: a jar with one fully attributed cookie survives the
round trip bit for bit. -/
theorem save_load_roundtrip_witness :
    (plynk_init "u2" "p2" none none (save_credentials stWithCreds).credFile).cookies
      = exampleJar :=
  save_load_roundtrip stWithCreds "u2" "p2" none none (by simp [stWithCreds, exampleJar])

end Plynk
